import Mathlib

/-!
Verification of the `DeepSeekClient.createChatCompletion` control loop from
`src/lib/llm/DeepSeekClient.ts` (retry + schema validation + caching).

The TypeScript method is embedded as a pure recursive function `run` over an
explicit environment of collaborators (transport, cache, `JSON.parse`,
`validateZodSchema`, `JSON.stringify` of the zod schema) and an explicit
message-list state.  The crucial aliasing in the source is modelled faithfully:
`const options: Partial<ChatCompletionOptions> = optionsInitial` makes
`options` the very same object as `optionsInitial`, so
`options.messages.unshift(...)` mutates the caller's array in place; the retry
re-invocations pass `optionsInitial`, whose `messages` field is that same
(now mutated) array, and `cacheOptions.messages` also aliases it.  Hence `run`
threads the current contents of the shared messages array through retries, and
the cache key is materialised from the array's contents at the moment
`cache.get` / `cache.set` is invoked.
-/

namespace DeepSeek

/-- JSON values, the result type of `JSON.parse`. -/
inductive Json where
  | null : Json
  | bool : Bool → Json
  | num : Int → Json
  | str : String → Json
  | arr : List Json → Json
  | obj : List (String × Json) → Json

/-- A value that can live in the cache / be returned by `createChatCompletion`:
either a parsed structured JSON value, or a raw provider response object
(kept abstract via a numeric identity). -/
inductive Value where
  | json : Json → Value
  | raw : Nat → Value

/-- JavaScript truthiness of a `Value`, as tested by `if (cachedResponse)`.
Objects (raw responses, arrays, JSON objects) are always truthy; `null`,
`false`, `0` and `""` are falsy. -/
def Value.truthy : Value → Bool
  | .json .null => false
  | .json (.bool b) => b
  | .json (.num n) => n != 0
  | .json (.str s) => !s.isEmpty
  | .json (.arr _) => true
  | .json (.obj _) => true
  | .raw _ => true

/-- One element of a structured (array-valued) message content: a part with a
`text` field, or any non-text part (e.g. an image part). -/
inductive ContentPart where
  | text : String → ContentPart
  | other : ContentPart
deriving DecidableEq, Repr

/-- Message content: a flat string, or a list of content parts. -/
inductive MsgContent where
  | flat : String → MsgContent
  | parts : List ContentPart → MsgContent
deriving DecidableEq, Repr

/-- A chat message as held in `options.messages`. -/
structure Message where
  role : String
  content : MsgContent
deriving DecidableEq, Repr

/-- `response_model`: a named zod schema.  The zod schema object itself is
abstract (identified by `schemaId`); its observable behaviour
(`validateZodSchema`, `JSON.stringify`) lives in the environment. -/
structure ResponseModel where
  name : String
  schemaId : Nat
deriving DecidableEq, Repr

/-- A tool definition from `options.tools`. -/
structure Tool where
  name : String
  description : String
  parameters : Nat
deriving DecidableEq, Repr

/-- The caller-supplied `ChatCompletionOptions` (the fields read by
`createChatCompletion`).  The `messages` field holds the *initial* contents of
the shared messages array; the current contents are threaded separately
because the source mutates the array in place. -/
structure ChatCompletionOptions where
  messages : List Message
  temperature : Option Int := none
  top_p : Option Int := none
  frequency_penalty : Option Int := none
  presence_penalty : Option Int := none
  maxTokens : Option Int := none
  response_model : Option ResponseModel := none
  requestId : Option String := none
  tools : Option (List Tool) := none
deriving DecidableEq, Repr

/-- The `cacheOptions` object as observed by the cache collaborator at the
moment of a `get`/`set` call (its `messages` field aliases the shared array,
so it is materialised from the array's current contents). -/
structure CacheKey where
  model : String
  messages : List Message
  temperature : Option Int
  top_p : Option Int
  frequency_penalty : Option Int
  presence_penalty : Option Int
  response_model : Option ResponseModel
deriving DecidableEq, Repr

/-- A message after flattening, as sent to the transport. -/
structure FormattedMessage where
  role : String
  content : String
deriving DecidableEq, Repr

/-- The `function` field of a mapped tool. -/
structure ToolFunctionDef where
  name : String
  description : String
  parameters : Nat
deriving DecidableEq, Repr

/-- A tool mapped into the transport's function-calling shape. -/
structure ToolCallDef where
  function : ToolFunctionDef
  type : String
deriving DecidableEq, Repr

/-- The request body handed to `client.chat.completions.create`. -/
structure TransportBody where
  model : String
  messages : List FormattedMessage
  temperature : Option Int
  max_tokens : Option Int
  top_p : Option Int
  frequency_penalty : Option Int
  presence_penalty : Option Int
  stream : Bool
  tools : Option (List ToolCallDef)
deriving DecidableEq, Repr

/-- Outcome of one transport call: a successful response (an object identity
plus `choices[0].message.content`, which may be absent), or a thrown error
carrying an optional HTTP-style `status`. -/
inductive TransportOutcome where
  | success : Nat → Option String → TransportOutcome
  | failure : Option Nat → TransportOutcome
deriving DecidableEq, Repr

/-- The classified errors `createChatCompletion` can fail with.  A transport
error keeps its identity (the index of the call that produced it) so that
"the original error object propagates unchanged" is expressible. -/
inductive Err where
  | noContent : Err
  | parseError : String → Err
  | invalidSchema : Err
  | insufficientBalance : Err
  | transportErr : Option Nat → Nat → Err
deriving DecidableEq, Repr

/-- A structured log event (category, message, severity level). -/
structure LogEvent where
  category : String
  message : String
  level : Nat
deriving DecidableEq, Repr

/-- The client configuration and external collaborators:
`modelName`/`enableCaching`/`cache` from the `DeepSeekClient` instance,
`transport` giving the outcome of the k-th remote call, `parseJson` modelling
`JSON.parse` (`none` = throws), `validate` modelling `validateZodSchema`, and
`stringifySchema` modelling `JSON.stringify(schema)`. -/
structure Env where
  modelName : String
  enableCaching : Bool
  cache : Option (CacheKey → Option Value)
  transport : Nat → TransportOutcome
  parseJson : String → Option Json
  validate : Nat → Json → Bool
  stringifySchema : Nat → String

/-- `"text" in c ? c.text : ""` for one content part. -/
def partText : ContentPart → String
  | .text s => s
  | .other => ""

/-- The flattening of one message's content (lines 107-112):
`Array.isArray(content) ? content.map(c => "text" in c ? c.text : "").filter(Boolean).join("\n") : content`. -/
def formatContent : MsgContent → String
  | .flat s => s
  | .parts l => String.intercalate "\n" ((l.map partText).filter (fun s => !s.isEmpty))

/-- One formatted message as built for the transport body (lines 104-113). -/
def formatMessage (m : Message) : FormattedMessage :=
  { role := m.role, content := formatContent m.content }

/-- The system instruction unshifted onto the messages array when a
`response_model` is present (lines 95-102). -/
def injectedMessage (env : Env) (rm : ResponseModel) : Message :=
  { role := "system"
    content := .flat ("Return response in this JSON format: " ++
      env.stringifySchema rm.schemaId ++
      ". Do not include any other text or markdown formatting.") }

/-- The `cacheOptions` object (lines 51-59), materialised with the current
contents `msgs` of the shared messages array. -/
def mkCacheKey (env : Env) (opts : ChatCompletionOptions) (msgs : List Message) :
    CacheKey :=
  { model := env.modelName
    messages := msgs
    temperature := opts.temperature
    top_p := opts.top_p
    frequency_penalty := opts.frequency_penalty
    presence_penalty := opts.presence_penalty
    response_model := opts.response_model }

/-- The request body (lines 115-132), from the current contents of the
messages array after any instruction injection. -/
def mkBody (env : Env) (opts : ChatCompletionOptions) (msgs : List Message) :
    TransportBody :=
  { model := env.modelName
    messages := msgs.map formatMessage
    temperature := opts.temperature
    max_tokens := opts.maxTokens
    top_p := opts.top_p
    frequency_penalty := opts.frequency_penalty
    presence_penalty := opts.presence_penalty
    stream := false
    tools := opts.tools.map (List.map fun t =>
      { function := { name := t.name, description := t.description,
                      parameters := t.parameters }
        type := "function" }) }

/-- The result of the cache fast path (lines 61-77): `some v` exactly when
caching is enabled, a cache is present, and `cache.get` returns a truthy
value (the source guards the early return with `if (cachedResponse)`). -/
def cacheHit (env : Env) (key : CacheKey) : Option Value :=
  if env.enableCaching then
    match env.cache with
    | some c =>
      match c key with
      | some v => if v.truthy then some v else none
      | none => none
    | none => none
  else none

/-- Whether `cache.get` is invoked at all (`this.enableCaching` true and
`this.cache` defined, since `this.cache?.get` short-circuits). -/
def cacheConsulted (env : Env) : Bool :=
  env.enableCaching && env.cache.isSome

/-- `extractedData` after the `if (!extractedData) throw` guard (lines
148-151): `null` and `""` are both falsy, so only a non-empty string passes. -/
def extractContent : Option String → Option String
  | some s => if s.isEmpty then none else some s
  | none => none

/-- The log event on a cache hit (level 1). -/
def cacheHitLog : LogEvent :=
  { category := "llm_cache", message := "LLM cache hit - returning cached response", level := 1 }

/-- The log event before the remote call (level 1). -/
def creatingLog : LogEvent :=
  { category := "deepseek", message := "creating chat completion", level := 1 }

/-- The log event after a successful remote call (level 1). -/
def receivedLog : LogEvent :=
  { category := "deepseek", message := "response received", level := 1 }

/-- The log event in the catch block (level 0). -/
def errorLog : LogEvent :=
  { category := "deepseek", message := "error creating chat completion", level := 0 }

/-- Everything observable about one top-level `createChatCompletion` call:
the returned value or propagated error, the transport bodies sent (in
order), the cache keys observed by `cache.get` and `cache.set`, the log
events, and the final contents of the caller's (shared, mutated) messages
array. -/
structure Outcome where
  result : Except Err Value
  bodies : List TransportBody
  gets : List CacheKey
  sets : List (CacheKey × Value)
  logs : List LogEvent
  finalMsgs : List Message

/-- The embedding of `createChatCompletion` (lines 43-208).  `msgs` is the
current contents of the shared messages array (aliased by `optionsInitial`,
`options` and `cacheOptions`); `retries` is the remaining retry budget;
`callIdx` indexes transport calls so each attempt gets its own outcome.
Retries re-enter the function with the same `opts` (`optionsInitial`) but
with the mutated array contents, exactly as the source does. -/
def run (env : Env) (opts : ChatCompletionOptions) :
    List Message → Nat → Nat → Outcome
  | msgs, retries, callIdx =>
    let getKey := mkCacheKey env opts msgs
    let gets0 : List CacheKey := if cacheConsulted env then [getKey] else []
    match cacheHit env getKey with
    | some v =>
      { result := .ok v, bodies := [], gets := gets0, sets := []
        logs := [cacheHitLog], finalMsgs := msgs }
    | none =>
      let msgs1 := match opts.response_model with
        | some rm => injectedMessage env rm :: msgs
        | none => msgs
      let body := mkBody env opts msgs1
      match env.transport callIdx with
      | .failure status =>
        if status = some 402 then
          { result := .error .insufficientBalance, bodies := [body], gets := gets0
            sets := [], logs := [creatingLog, errorLog], finalMsgs := msgs1 }
        else
          match retries with
          | r + 1 =>
            let rest := run env opts msgs1 r (callIdx + 1)
            { result := rest.result, bodies := body :: rest.bodies
              gets := gets0 ++ rest.gets, sets := rest.sets
              logs := creatingLog :: errorLog :: rest.logs
              finalMsgs := rest.finalMsgs }
          | 0 =>
            { result := .error (.transportErr status callIdx), bodies := [body]
              gets := gets0, sets := [], logs := [creatingLog, errorLog]
              finalMsgs := msgs1 }
      | .success rawId content =>
        match opts.response_model with
        | none =>
          let sets0 := if cacheConsulted env then
            [(mkCacheKey env opts msgs1, Value.raw rawId)] else []
          { result := .ok (Value.raw rawId), bodies := [body], gets := gets0
            sets := sets0, logs := [creatingLog, receivedLog], finalMsgs := msgs1 }
        | some rm =>
          match extractContent content with
          | none =>
            match retries with
            | r + 1 =>
              let rest := run env opts msgs1 r (callIdx + 1)
              { result := rest.result, bodies := body :: rest.bodies
                gets := gets0 ++ rest.gets, sets := rest.sets
                logs := creatingLog :: receivedLog :: errorLog :: rest.logs
                finalMsgs := rest.finalMsgs }
            | 0 =>
              { result := .error .noContent, bodies := [body], gets := gets0
                sets := [], logs := [creatingLog, receivedLog, errorLog]
                finalMsgs := msgs1 }
          | some s =>
            match env.parseJson s with
            | none =>
              match retries with
              | r + 1 =>
                let rest := run env opts msgs1 r (callIdx + 1)
                { result := rest.result, bodies := body :: rest.bodies
                  gets := gets0 ++ rest.gets, sets := rest.sets
                  logs := creatingLog :: receivedLog :: errorLog :: rest.logs
                  finalMsgs := rest.finalMsgs }
              | 0 =>
                { result := .error (.parseError s), bodies := [body], gets := gets0
                  sets := [], logs := [creatingLog, receivedLog, errorLog]
                  finalMsgs := msgs1 }
            | some j =>
              if env.validate rm.schemaId j then
                let sets0 := if cacheConsulted env then
                  [(mkCacheKey env opts msgs1, Value.json j)] else []
                { result := .ok (Value.json j), bodies := [body], gets := gets0
                  sets := sets0, logs := [creatingLog, receivedLog]
                  finalMsgs := msgs1 }
              else
                match retries with
                | r + 1 =>
                  let rest := run env opts msgs1 r (callIdx + 1)
                  { result := rest.result, bodies := body :: rest.bodies
                    gets := gets0 ++ rest.gets, sets := rest.sets
                    logs := creatingLog :: receivedLog :: rest.logs
                    finalMsgs := rest.finalMsgs }
                | 0 =>
                  { result := .error .invalidSchema, bodies := [body], gets := gets0
                    sets := [], logs := [creatingLog, receivedLog, errorLog]
                    finalMsgs := msgs1 }

/-! ### Concrete fixtures for witnesses and counterexamples -/

/-- A plain user message, as in the spec's worked scenario. -/
def userMsg : Message := { role := "user", content := .flat "what is 2+2?" }

/-- A response model asking for a structured answer. -/
def rm0 : ResponseModel := { name := "extraction", schemaId := 0 }

/-- The parsed JSON object of the scenario response. -/
def answerJson : Json := .obj [("answer", .num 4)]

/-- A baseline environment: caching off, every transport call succeeds with
content that parses to `answerJson`, validation accepts everything. -/
def baseEnv : Env :=
  { modelName := "deepseek-chat"
    enableCaching := false
    cache := none
    transport := fun _ => .success 0 (some "answer-json")
    parseJson := fun s => if s = "answer-json" then some answerJson else none
    validate := fun _ _ => true
    stringifySchema := fun _ => "schema-json" }

/-- The scenario request asking for structured output. -/
def optsStructured : ChatCompletionOptions :=
  { messages := [userMsg], response_model := some rm0, requestId := some "req-1" }

/-- The scenario request without a response model. -/
def optsPlain : ChatCompletionOptions :=
  { messages := [userMsg], requestId := some "req-1" }

/-- Environment in which `validateZodSchema` always rejects. -/
def envAlwaysInvalid : Env := { baseEnv with validate := fun _ _ => false }

/-- Environment in which every response's content fails `JSON.parse`. -/
def envBadJson : Env :=
  { baseEnv with transport := fun _ => .success 0 (some "bad-json") }

/-- Environment in which every transport call throws with status 402. -/
def env402 : Env := { baseEnv with transport := fun _ => .failure (some 402) }

/-- Environment in which the k-th transport call throws with status 500+k. -/
def envTransportDown : Env :=
  { baseEnv with transport := fun k => .failure (some (500 + k)) }

/-- Caching enabled and the cache holds the (falsy) value `false` under every
key. -/
def envFalsyCached : Env :=
  { baseEnv with
    enableCaching := true
    cache := some (fun _ => some (.json (.bool false))) }

/-- Caching enabled and the cache holds a (truthy) raw response under every
key. -/
def envTruthyCached : Env :=
  { baseEnv with
    enableCaching := true
    cache := some (fun _ => some (.raw 42)) }

/-- Caching enabled with an empty cache. -/
def envCacheMiss : Env :=
  { baseEnv with
    enableCaching := true
    cache := some (fun _ => none) }

/-! ### Claim theorems -/

/-- C1: the claim says the message list sent to the transport on a retry
contains the injected system instruction at most once.  The code violates
this: `options` aliases `optionsInitial`, so `options.messages.unshift(...)`
mutates the caller's array in place and the retry (which passes
`optionsInitial`) re-injects into the already-mutated list.  With budget 1
and validation always failing, the first transport body carries the injected
instruction once but the retried body carries it twice, and the caller's
array ends up with two copies of the instruction. -/
theorem c1_retry_duplicates_injected_instruction :
    (run envAlwaysInvalid optsStructured [userMsg] 1 0).bodies.map
        (fun b => b.messages.count
          (formatMessage (injectedMessage envAlwaysInvalid rm0))) = [1, 2] ∧
    (run envAlwaysInvalid optsStructured [userMsg] 1 0).finalMsgs =
      [injectedMessage envAlwaysInvalid rm0, injectedMessage envAlwaysInvalid rm0,
        userMsg] :=
  ⟨rfl, rfl⟩

/-- C2 (counterexample): the claim says a response whose content is not valid
JSON makes `createChatCompletion` fail with the parse error without any retry,
for any positive budget.  In the code `JSON.parse` is called inside the `try`
block, so its exception is caught by the generic `catch` and retried: with
budget 1 and unparseable content, two transport calls happen, and the parse
error only propagates once the budget is exhausted. -/
theorem c2_counterexample_parse_failure_is_retried :
    (run envBadJson optsStructured [userMsg] 1 0).bodies.length = 2 ∧
    (run envBadJson optsStructured [userMsg] 1 0).result =
      .error (.parseError "bad-json") :=
  ⟨rfl, rfl⟩

/-- C4: a transport failure with status 402 results in exactly one transport
call and the distinct insufficient-balance error, regardless of the remaining
retry budget. -/
theorem c4_status_402_never_retried (env : Env) (opts : ChatCompletionOptions)
    (msgs : List Message) (retries callIdx : Nat)
    (hnc : ∀ key, cacheHit env key = none)
    (htr : env.transport callIdx = .failure (some 402)) :
    (run env opts msgs retries callIdx).bodies.length = 1 ∧
    (run env opts msgs retries callIdx).result = .error .insufficientBalance := by
  rw [run, hnc, htr]
  exact ⟨rfl, rfl⟩

/-- Witness for C4 at a concrete input (budget 3, structured request). -/
theorem c4_status_402_never_retried_witness :
    (∀ key, cacheHit env402 key = none) ∧
    env402.transport 0 = .failure (some 402) ∧
    (run env402 optsStructured [userMsg] 3 0).bodies.length = 1 ∧
    (run env402 optsStructured [userMsg] 3 0).result = .error .insufficientBalance :=
  ⟨fun _ => rfl, rfl,
    (c4_status_402_never_retried env402 optsStructured [userMsg] 3 0 (fun _ => rfl) rfl).1,
    (c4_status_402_never_retried env402 optsStructured [userMsg] 3 0 (fun _ => rfl) rfl).2⟩

/-- C5 (counterexample): the claim says that whenever the cache lookup returns
a value V, that V is returned with no transport call.  The code guards the
fast path with the JavaScript truthiness test `if (cachedResponse)`, so a
cached falsy value (here the validated JSON value `false`) is ignored: the
lookup returns V, yet the transport is invoked once and its response — not
V — is returned. -/
theorem c5_counterexample_falsy_cached_value :
    (Option.getD envFalsyCached.cache (fun _ => none))
        (mkCacheKey envFalsyCached optsPlain [userMsg]) =
      some (Value.json (Json.bool false)) ∧
    (run envFalsyCached optsPlain [userMsg] 3 0).bodies.length = 1 ∧
    (run envFalsyCached optsPlain [userMsg] 3 0).result = Except.ok (Value.raw 0) :=
  ⟨rfl, rfl, rfl⟩

/-- C5 (amended): if caching is enabled and the cache lookup for the derived
key returns a *truthy* value V, `createChatCompletion` returns exactly V,
invokes no transport call, and emits no level-0 log event. -/
theorem c5_cache_hit_fast_path (env : Env) (opts : ChatCompletionOptions)
    (msgs : List Message) (retries callIdx : Nat) (v : Value)
    (hhit : cacheHit env (mkCacheKey env opts msgs) = some v) :
    (run env opts msgs retries callIdx).result = Except.ok v ∧
    (run env opts msgs retries callIdx).bodies = [] ∧
    ∀ e ∈ (run env opts msgs retries callIdx).logs, e.level ≠ 0 := by
  rw [run, hhit]
  refine ⟨rfl, rfl, ?_⟩
  intro e he
  have he' : e ∈ [cacheHitLog] := he
  rw [List.mem_singleton] at he'
  subst he'
  decide

/-- Witness for C5 (amended): a truthy cached raw response is returned as-is
with no transport call and no level-0 log. -/
theorem c5_cache_hit_fast_path_witness :
    cacheHit envTruthyCached (mkCacheKey envTruthyCached optsPlain [userMsg]) =
      some (Value.raw 42) ∧
    (run envTruthyCached optsPlain [userMsg] 3 0).result = Except.ok (Value.raw 42) ∧
    (run envTruthyCached optsPlain [userMsg] 3 0).bodies = [] ∧
    ∀ e ∈ (run envTruthyCached optsPlain [userMsg] 3 0).logs, e.level ≠ 0 :=
  ⟨rfl,
    (c5_cache_hit_fast_path envTruthyCached optsPlain [userMsg] 3 0 (.raw 42) rfl).1,
    (c5_cache_hit_fast_path envTruthyCached optsPlain [userMsg] 3 0 (.raw 42) rfl).2.1,
    (c5_cache_hit_fast_path envTruthyCached optsPlain [userMsg] 3 0 (.raw 42) rfl).2.2⟩

/-- C6: the claim says the key passed to `cache.set` equals the key passed to
`cache.get` for the same attempt — the caller's original message list, without
the injected instruction.  The code violates this: `cacheOptions.messages`
aliases the shared array, which is mutated by `unshift` between the `get` and
the `set`, so on a successful structured attempt the `get` key carries the
original messages but the `set` key carries the injected system instruction
in front of them. -/
theorem c6_set_key_contains_injected_instruction :
    (run envCacheMiss optsStructured [userMsg] 3 0).gets.map CacheKey.messages =
      [[userMsg]] ∧
    (run envCacheMiss optsStructured [userMsg] 3 0).sets.map
        (fun p => p.1.messages) =
      [[injectedMessage envCacheMiss rm0, userMsg]] ∧
    (run envCacheMiss optsStructured [userMsg] 3 0).result =
      Except.ok (Value.json answerJson) ∧
    (run envCacheMiss optsStructured [userMsg] 3 0).gets ≠
      (run envCacheMiss optsStructured [userMsg] 3 0).sets.map Prod.fst :=
  ⟨rfl, rfl, rfl, by decide⟩

/-- The flattening the claim describes, word for word: the text parts in their
original order, joined by newline, with every non-text part dropped (an empty
text part is kept and contributes an empty segment). -/
def claimFlattenedContent (l : List ContentPart) : String :=
  String.intercalate "\n" (l.filterMap fun c =>
    match c with
    | .text s => some s
    | .other => none)

/-- C9 (counterexample): the code's flattening pipes the part texts through
`filter(Boolean)`, which also drops *empty* text parts, so a message holding
an empty text part is not transmitted as the newline-join of all its text
parts. -/
theorem c9_counterexample_empty_text_part :
    formatContent (.parts [.text "a", .other, .text "", .text "b"]) = "a\nb" ∧
    claimFlattenedContent [.text "a", .other, .text "", .text "b"] = "a\n\nb" ∧
    formatContent (.parts [.text "a", .other, .text "", .text "b"]) ≠
      claimFlattenedContent [.text "a", .other, .text "", .text "b"] :=
  ⟨rfl, rfl, by decide⟩

/-- The flattening the amended claim describes: the *non-empty* text parts in
their original order, joined by newline, with every non-text part and every
empty text part dropped. -/
def amendedFlattenedContent (l : List ContentPart) : String :=
  String.intercalate "\n" (l.filterMap fun c =>
    match c with
    | .text s => if s.isEmpty then none else some s
    | .other => none)

/-- Helper for C9: the code's `map`/`filter(Boolean)` pipeline keeps exactly
the non-empty text parts in order, for every part list. -/
theorem filter_partText_eq_filterMap (l : List ContentPart) :
    (l.map partText).filter (fun s => !s.isEmpty) =
      l.filterMap (fun c =>
        match c with
        | .text s => if s.isEmpty then none else some s
        | .other => none) := by
  induction l with
  | nil => rfl
  | cons c cs ih =>
    cases c with
    | text s =>
      cases hse : s.isEmpty
      · simp [partText, List.filter_cons, List.filterMap_cons, hse, ih]
      · simp [partText, List.filter_cons, List.filterMap_cons, hse, ih]
    | other =>
      have h0 : ("" : String).isEmpty = true := rfl
      simp [partText, List.filter_cons, List.filterMap_cons, h0, ih]

/-- C9 (amended): for every message whose content is a list of mixed text and
non-text parts, the content transmitted for that message is the concatenation
of the non-empty text parts in their original order joined by newline, with
every non-text part and every empty text part dropped; the transport body
transmits exactly the formatted messages. -/
theorem c9_flattening (role : String) (l : List ContentPart) :
    formatMessage { role := role, content := .parts l } =
      FormattedMessage.mk role (amendedFlattenedContent l) ∧
    ∀ (env : Env) (opts : ChatCompletionOptions) (msgs : List Message),
      (mkBody env opts msgs).messages = msgs.map formatMessage := by
  refine ⟨?_, fun _ _ _ => rfl⟩
  show FormattedMessage.mk role (formatContent (.parts l)) = _
  rw [formatContent, amendedFlattenedContent, filter_partText_eq_filterMap l]

/-- C10: the cache key is built from exactly the model id, the messages, the
four sampling parameters and the response-model descriptor; two requests
agreeing on those fields (in particular two requests differing only in
`requestId`, or in `maxTokens` or `tools`) derive the same cache key. -/
theorem c10_cache_key_ignores_requestId (env : Env)
    (o₁ o₂ : ChatCompletionOptions) (msgs : List Message)
    (ht : o₁.temperature = o₂.temperature)
    (hp : o₁.top_p = o₂.top_p)
    (hf : o₁.frequency_penalty = o₂.frequency_penalty)
    (hpr : o₁.presence_penalty = o₂.presence_penalty)
    (hrm : o₁.response_model = o₂.response_model) :
    mkCacheKey env o₁ msgs = mkCacheKey env o₂ msgs := by
  rw [mkCacheKey, mkCacheKey, ht, hp, hf, hpr, hrm]

/-- Witness for C10: two concrete requests differing only in `requestId`
derive the same cache key. -/
theorem c10_cache_key_ignores_requestId_witness :
    optsStructured.requestId = some "req-1" ∧
    ({ optsStructured with requestId := some "req-2" } :
        ChatCompletionOptions).requestId = some "req-2" ∧
    mkCacheKey baseEnv optsStructured [userMsg] =
      mkCacheKey baseEnv { optsStructured with requestId := some "req-2" } [userMsg] :=
  ⟨rfl, rfl,
    c10_cache_key_ignores_requestId baseEnv optsStructured
      { optsStructured with requestId := some "req-2" } [userMsg] rfl rfl rfl rfl rfl⟩

/-- C2 (amended): a response whose textual content is not valid JSON is
*caught by the generic error handler and retried* like a transport error:
while the budget allows, the original request is re-sent, and once the budget
is exhausted the `JSON.parse` error of the last attempt propagates.  With
budget n this makes `n + 1` transport calls. -/
theorem c2_parse_failure_retried_then_propagates (env : Env)
    (opts : ChatCompletionOptions) (msgs : List Message) (retries callIdx : Nat)
    (rm : ResponseModel) (rawId : Nat → Nat) (cont : Nat → String)
    (hrm : opts.response_model = some rm)
    (hnc : ∀ key, cacheHit env key = none)
    (htr : ∀ k, env.transport k = .success (rawId k) (some (cont k)))
    (hne : ∀ k, (cont k).isEmpty = false)
    (hpj : ∀ k, env.parseJson (cont k) = none) :
    (run env opts msgs retries callIdx).bodies.length = retries + 1 ∧
    (run env opts msgs retries callIdx).result =
      .error (.parseError (cont (callIdx + retries))) := by
  induction retries generalizing msgs callIdx with
  | zero =>
    rw [run, hnc, htr, hrm]
    simp only [extractContent, hne, Bool.false_eq_true, if_false, hpj]
    exact ⟨rfl, rfl⟩
  | succ r ih =>
    rw [run, hnc, htr, hrm]
    simp only [extractContent, hne, Bool.false_eq_true, if_false, hpj,
      List.length_cons]
    have harith : callIdx + (r + 1) = (callIdx + 1) + r := by omega
    refine ⟨?_, ?_⟩
    · rw [(ih _ (callIdx + 1)).1]
    · rw [(ih _ (callIdx + 1)).2, harith]

/-- Witness for C2 (amended): with unparseable content and budget 2, three
transport calls happen and the parse error propagates. -/
theorem c2_parse_failure_retried_then_propagates_witness :
    optsStructured.response_model = some rm0 ∧
    (∀ key, cacheHit envBadJson key = none) ∧
    (∀ k, envBadJson.transport k = .success 0 (some "bad-json")) ∧
    ("bad-json".isEmpty = false) ∧
    envBadJson.parseJson "bad-json" = none ∧
    (run envBadJson optsStructured [userMsg] 2 0).bodies.length = 3 ∧
    (run envBadJson optsStructured [userMsg] 2 0).result =
      .error (.parseError "bad-json") :=
  ⟨rfl, fun _ => rfl, fun _ => rfl, rfl, rfl,
    (c2_parse_failure_retried_then_propagates envBadJson optsStructured [userMsg]
      2 0 rm0 (fun _ => 0) (fun _ => "bad-json") rfl (fun _ => rfl) (fun _ => rfl)
      (fun _ => rfl) (fun _ => rfl)).1,
    (c2_parse_failure_retried_then_propagates envBadJson optsStructured [userMsg]
      2 0 rm0 (fun _ => 0) (fun _ => "bad-json") rfl (fun _ => rfl) (fun _ => rfl)
      (fun _ => rfl) (fun _ => rfl)).2⟩

/-- C3: for a structured-output request with no cache hit whose every response
parses as JSON but always fails schema validation, a call with budget n makes
exactly n + 1 transport calls and then fails with the schema-validation error
(`Invalid response schema`). -/
theorem c3_retry_bound_always_invalid (env : Env) (opts : ChatCompletionOptions)
    (msgs : List Message) (retries callIdx : Nat) (rm : ResponseModel)
    (rawId : Nat → Nat) (cont : Nat → String) (pj : Nat → Json)
    (hrm : opts.response_model = some rm)
    (hnc : ∀ key, cacheHit env key = none)
    (htr : ∀ k, env.transport k = .success (rawId k) (some (cont k)))
    (hne : ∀ k, (cont k).isEmpty = false)
    (hpj : ∀ k, env.parseJson (cont k) = some (pj k))
    (hv : ∀ j, env.validate rm.schemaId j = false) :
    (run env opts msgs retries callIdx).bodies.length = retries + 1 ∧
    (run env opts msgs retries callIdx).result = .error .invalidSchema := by
  induction retries generalizing msgs callIdx with
  | zero =>
    rw [run, hnc, htr, hrm]
    simp only [extractContent, hne, Bool.false_eq_true, if_false, hpj, hv]
    exact ⟨rfl, trivial⟩
  | succ r ih =>
    rw [run, hnc, htr, hrm]
    simp only [extractContent, hne, Bool.false_eq_true, if_false, hpj, hv,
      List.length_cons]
    refine ⟨?_, (ih _ (callIdx + 1)).2⟩
    rw [(ih _ (callIdx + 1)).1]

/-- Witness for C3: with validation always rejecting and budget 2, three
transport calls happen and `Invalid response schema` propagates. -/
theorem c3_retry_bound_always_invalid_witness :
    optsStructured.response_model = some rm0 ∧
    (∀ key, cacheHit envAlwaysInvalid key = none) ∧
    (∀ k, envAlwaysInvalid.transport k = .success 0 (some "answer-json")) ∧
    ("answer-json".isEmpty = false) ∧
    envAlwaysInvalid.parseJson "answer-json" = some answerJson ∧
    (∀ j, envAlwaysInvalid.validate rm0.schemaId j = false) ∧
    (run envAlwaysInvalid optsStructured [userMsg] 2 0).bodies.length = 3 ∧
    (run envAlwaysInvalid optsStructured [userMsg] 2 0).result =
      .error .invalidSchema :=
  ⟨rfl, fun _ => rfl, fun _ => rfl, rfl, rfl, fun _ => rfl,
    (c3_retry_bound_always_invalid envAlwaysInvalid optsStructured [userMsg]
      2 0 rm0 (fun _ => 0) (fun _ => "answer-json") (fun _ => answerJson) rfl
      (fun _ => rfl) (fun _ => rfl) (fun _ => rfl) (fun _ => rfl)
      (fun _ => rfl)).1,
    (c3_retry_bound_always_invalid envAlwaysInvalid optsStructured [userMsg]
      2 0 rm0 (fun _ => 0) (fun _ => "answer-json") (fun _ => answerJson) rfl
      (fun _ => rfl) (fun _ => rfl) (fun _ => rfl) (fun _ => rfl)
      (fun _ => rfl)).2⟩

/-- C7: for a structured-output request, every value ever passed to
`cache.set` is a parsed JSON value that passed schema validation (never the
raw unvalidated response), and whenever the call fails — on any failing or
retried attempt — no cache write has occurred. -/
theorem c7_cache_write_only_after_validation (env : Env)
    (opts : ChatCompletionOptions) (msgs : List Message) (retries callIdx : Nat)
    (rm : ResponseModel) (hrm : opts.response_model = some rm) :
    (∀ p ∈ (run env opts msgs retries callIdx).sets,
      ∃ j, p.2 = Value.json j ∧ env.validate rm.schemaId j = true) ∧
    (∀ e, (run env opts msgs retries callIdx).result = Except.error e →
      (run env opts msgs retries callIdx).sets = []) := by
  induction retries generalizing msgs callIdx with
  | zero =>
    rw [run, hrm]
    cases hca : cacheHit env (mkCacheKey env opts msgs) with
    | some v => simp
    | none =>
      cases htr : env.transport callIdx with
      | failure status =>
        by_cases h4 : status = some 402
        · simp [h4]
        · simp [h4]
      | success rawId content =>
        cases hec : extractContent content with
        | none => simp [hec]
        | some s =>
          cases hpj : env.parseJson s with
          | none => simp [hec, hpj]
          | some j =>
            by_cases hv : env.validate rm.schemaId j
            · simp only [hec, hpj]
              rw [if_pos hv]
              refine ⟨?_, fun e he => absurd he (by simp)⟩
              intro p hp
              have hp' : p ∈ (if cacheConsulted env = true then
                  [(mkCacheKey env opts (injectedMessage env rm :: msgs), Value.json j)]
                  else []) := hp
              refine ⟨j, ?_, hv⟩
              cases hcc : cacheConsulted env
              · rw [hcc] at hp'
                simp at hp'
              · rw [hcc] at hp'
                rw [if_pos rfl, List.mem_singleton] at hp'
                rw [hp']
            · simp [hec, hpj, hv]
  | succ r ih =>
    rw [run, hrm]
    cases hca : cacheHit env (mkCacheKey env opts msgs) with
    | some v => simp
    | none =>
      cases htr : env.transport callIdx with
      | failure status =>
        by_cases h4 : status = some 402
        · simp [h4]
        · simp only []
          rw [if_neg h4]
          exact ih _ (callIdx + 1)
      | success rawId content =>
        cases hec : extractContent content with
        | none =>
          simp only [hec]
          exact ih _ (callIdx + 1)
        | some s =>
          cases hpj : env.parseJson s with
          | none =>
            simp only [hec, hpj]
            exact ih _ (callIdx + 1)
          | some j =>
            by_cases hv : env.validate rm.schemaId j
            · simp only [hec, hpj]
              rw [if_pos hv]
              refine ⟨?_, fun e he => absurd he (by simp)⟩
              intro p hp
              have hp' : p ∈ (if cacheConsulted env = true then
                  [(mkCacheKey env opts (injectedMessage env rm :: msgs), Value.json j)]
                  else []) := hp
              refine ⟨j, ?_, hv⟩
              cases hcc : cacheConsulted env
              · rw [hcc] at hp'
                simp at hp'
              · rw [hcc] at hp'
                rw [if_pos rfl, List.mem_singleton] at hp'
                rw [hp']
            · simp only [hec, hpj]
              rw [if_neg hv]
              exact ih _ (callIdx + 1)

/-- Witness for C7 on a concrete structured request with caching enabled. -/
theorem c7_cache_write_only_after_validation_witness :
    optsStructured.response_model = some rm0 ∧
    (∀ p ∈ (run envCacheMiss optsStructured [userMsg] 3 0).sets,
      ∃ j, p.2 = Value.json j ∧ envCacheMiss.validate rm0.schemaId j = true) ∧
    (∀ e, (run envCacheMiss optsStructured [userMsg] 3 0).result = Except.error e →
      (run envCacheMiss optsStructured [userMsg] 3 0).sets = []) :=
  ⟨rfl,
    (c7_cache_write_only_after_validation envCacheMiss optsStructured [userMsg]
      3 0 rm0 rfl).1,
    (c7_cache_write_only_after_validation envCacheMiss optsStructured [userMsg]
      3 0 rm0 rfl).2⟩

/-- C8: transport errors whose status is not 402 are retried one budget unit
per attempt until the budget is exhausted (n + 1 transport calls for budget
n), and then the error object of the final transport call propagates to the
caller unchanged. -/
theorem c8_transport_errors_retried_then_propagate (env : Env)
    (opts : ChatCompletionOptions) (msgs : List Message) (retries callIdx : Nat)
    (st : Nat → Option Nat)
    (hnc : ∀ key, cacheHit env key = none)
    (htr : ∀ k, env.transport k = .failure (st k))
    (h402 : ∀ k, st k ≠ some 402) :
    (run env opts msgs retries callIdx).bodies.length = retries + 1 ∧
    (run env opts msgs retries callIdx).result =
      .error (.transportErr (st (callIdx + retries)) (callIdx + retries)) := by
  induction retries generalizing msgs callIdx with
  | zero =>
    rw [run, hnc, htr]
    simp only [h402, if_false, reduceCtorEq]
    exact ⟨rfl, rfl⟩
  | succ r ih =>
    rw [run, hnc, htr]
    simp only [h402, if_false, reduceCtorEq, List.length_cons]
    have harith : callIdx + (r + 1) = (callIdx + 1) + r := by omega
    constructor
    · rw [(ih _ (callIdx + 1)).1]
    · rw [(ih _ (callIdx + 1)).2, harith]

/-- Witness for C8: transport failing with status 500+k and budget 2 makes
three transport calls and propagates the third call's error. -/
theorem c8_transport_errors_retried_then_propagate_witness :
    (∀ key, cacheHit envTransportDown key = none) ∧
    (∀ k, envTransportDown.transport k = .failure (some (500 + k))) ∧
    (∀ k, (some (500 + k) : Option Nat) ≠ some 402) ∧
    (run envTransportDown optsPlain [userMsg] 2 0).bodies.length = 3 ∧
    (run envTransportDown optsPlain [userMsg] 2 0).result =
      .error (.transportErr (some 502) 2) :=
  ⟨fun _ => rfl, fun _ => rfl,
    fun k h => absurd (Option.some.inj h) (by omega),
    (c8_transport_errors_retried_then_propagate envTransportDown optsPlain
      [userMsg] 2 0 (fun k => some (500 + k)) (fun _ => rfl) (fun _ => rfl)
      (fun k h => absurd (Option.some.inj h) (by omega))).1,
    (c8_transport_errors_retried_then_propagate envTransportDown optsPlain
      [userMsg] 2 0 (fun k => some (500 + k)) (fun _ => rfl) (fun _ => rfl)
      (fun k h => absurd (Option.some.inj h) (by omega))).2⟩

end DeepSeek
